import Mathlib

/-!
# UDP transport core: `Address` and `UDPSocket`

A shallow embedding of `src/network/address.h` and `src/network/socket.cpp`
(POSIX build), followed by the properties of the endpoint operations.

Conventions of the embedding

* Every call of an endpoint operation is a pure function of the endpoint, its
  arguments, the build-time constants (`Config`) and the answers the host gives
  to the system calls of that call (`Env`).  The result (`Run`, `RecvRun`) holds
  the outcome, the endpoint afterwards, the system calls issued in order and
  the lines written to the log streams.
* C++ `int` values are `Int`; no arithmetic is done on them, so no wrap-around
  is involved.  `u16`/`u32` values are `Nat`, reduced modulo `2^16`/`2^32` where
  the C++ conversion does so.  Octets are `Fin 256`.
-/

namespace Luanti

/-! ## Build-time constants -/

/-- Constants the translation unit takes from headers that are not part of the
shown sources: `INTERNET_SIMULATOR` and `INTERNET_SIMULATOR_PACKET_LOSS` from
`constants.h`, the address-family and error codes from the host headers, and
the byte order of the host (which fixes `htons`/`ntohs`/`ntohl`). -/
structure Config where
  INTERNET_SIMULATOR : Int
  INTERNET_SIMULATOR_PACKET_LOSS : Nat
  AF_INET : Nat
  AF_INET6 : Nat
  EINTR : Int
  EBADF : Int
  little_endian : Bool

/-! ## Byte order -/

/-- Byte swap of a 16-bit value. -/
def bswap16 (x : Nat) : Nat :=
  (x % 256) * 256 + (x / 256) % 256

/-- Byte swap of a 32-bit value. -/
def bswap32 (x : Nat) : Nat :=
  (x % 256) * 16777216 + ((x / 256) % 256) * 65536 +
    ((x / 65536) % 256) * 256 + (x / 16777216) % 256

/-- Host function `htons`: the argument is a `uint16_t`. -/
def htons (cfg : Config) (x : Nat) : Nat :=
  if cfg.little_endian then bswap16 (x % 65536) else x % 65536

/-- Host function `ntohs`. -/
def ntohs (cfg : Config) (x : Nat) : Nat :=
  if cfg.little_endian then bswap16 (x % 65536) else x % 65536

/-- Host function `ntohl`: the argument is a `uint32_t`. -/
def ntohl (cfg : Config) (x : Nat) : Nat :=
  if cfg.little_endian then bswap32 (x % 4294967296) else x % 4294967296

/-! ## Address (`address.h`) -/

/-- One octet. -/
abbrev u8 := Fin 256

/-- The host type `struct in_addr`: the four octets of `s_addr` in memory order. -/
structure in_addr where
  octets : Fin 4 → u8

/-- The host type `struct in6_addr`: the sixteen octets `s6_addr`. -/
structure in6_addr where
  s6_addr : Fin 16 → u8

/-- The `u32` value the host reads from the field `s_addr`. -/
def in_addr.s_addr (cfg : Config) (a : in_addr) : Nat :=
  if cfg.little_endian then
    (a.octets 0).val + (a.octets 1).val * 256 + (a.octets 2).val * 65536 +
      (a.octets 3).val * 16777216
  else
    (a.octets 0).val * 16777216 + (a.octets 1).val * 65536 + (a.octets 2).val * 256 +
      (a.octets 3).val

/-- The struct `IPv6AddressBytes` of `address.h`. -/
structure IPv6AddressBytes where
  bytes : Fin 16 → u8

/-- The host type `struct sockaddr_in`, restricted to the fields the code
writes or reads.  `sin_family` is an `unsigned short` like `m_addr_family`;
`sin_port` is the `u16` the host reads from the field. -/
structure sockaddr_in where
  sin_family : Nat
  sin_port : Nat
  sin_addr : in_addr

/-- The host type `struct sockaddr_in6`, restricted to the fields the code
writes or reads (flow information and scope stay zero and are never read). -/
structure sockaddr_in6 where
  sin6_family : Nat
  sin6_port : Nat
  sin6_addr : in6_addr

/-- The anonymous union `m_address` of `Address`: sixteen octets of storage;
`ipv4` overlays the first four, `ipv6` all sixteen. -/
structure AddressStorage where
  raw : Fin 16 → u8

/-- Reading the union member `ipv4`. -/
def AddressStorage.ipv4 (s : AddressStorage) : in_addr :=
  ⟨fun i => s.raw (Fin.castLE (by decide) i)⟩

/-- Reading the union member `ipv6`. -/
def AddressStorage.ipv6 (s : AddressStorage) : in6_addr :=
  ⟨s.raw⟩

/-- Assigning the union member `ipv4`: the first four octets are overwritten. -/
def AddressStorage.set_ipv4 (s : AddressStorage) (v : in_addr) : AddressStorage :=
  ⟨fun j => if h : j.val < 4 then v.octets ⟨j.val, h⟩ else s.raw j⟩

/-- Assigning the union member `ipv6`: all sixteen octets are overwritten. -/
def AddressStorage.set_ipv6 (_s : AddressStorage) (v : in6_addr) : AddressStorage :=
  ⟨v.s6_addr⟩

/-- The class `Address`: `m_addr_family` is an `unsigned short`, `m_port` a `u16`. -/
structure Address where
  m_addr_family : Nat
  m_address : AddressStorage
  m_port : Nat

/-- The getter `Address::getFamily`. -/
def Address.getFamily (a : Address) : Nat := a.m_addr_family

/-- The getter `Address::isValid`. -/
def Address.isValid (a : Address) : Bool := a.m_addr_family != 0

/-- The getter `Address::isIPv6`. -/
def Address.isIPv6 (cfg : Config) (a : Address) : Bool := a.m_addr_family == cfg.AF_INET6

/-- The getter `Address::getAddress`. -/
def Address.getAddress (a : Address) : in_addr := a.m_address.ipv4

/-- The getter `Address::getAddress6`. -/
def Address.getAddress6 (a : Address) : in6_addr := a.m_address.ipv6

/-- The getter `Address::getPort`. -/
def Address.getPort (a : Address) : Nat := a.m_port

/-- The constructor `Address(const sockaddr_in &)`.  It assigns the three
members and nothing else, so the twelve octets of the union behind `ipv4` keep
whatever the storage of the new object held (`fresh`). -/
def Address.of_sockaddr_in (cfg : Config) (fresh : AddressStorage) (sai : sockaddr_in) :
    Address :=
  { m_address := fresh.set_ipv4 sai.sin_addr
    m_addr_family := sai.sin_family
    m_port := ntohs cfg sai.sin_port }

/-- The constructor `Address(const sockaddr_in6 &)`. -/
def Address.of_sockaddr_in6 (cfg : Config) (fresh : AddressStorage) (sai : sockaddr_in6) :
    Address :=
  { m_address := fresh.set_ipv6 sai.sin6_addr
    m_addr_family := sai.sin6_family
    m_port := ntohs cfg sai.sin6_port }

/-- Modelled from the spec: the constructor `Address(u32 address, u16 port)`
is only declared in `address.h`; its body is in `address.cpp`, which is not
among the shown sources.  Spec, 4.A and 3: "From `(u32 ipv4_host_order, u16
port)`: V4", "Construction from 32-bit integer treats that integer as
host-byte-order IPv4", so the octets in memory (network order) are the
big-endian digits of the integer.  The spec leaves the storage behind the four
V4 octets undefined; it is zero here. -/
def Address.of_u32 (cfg : Config) (address : Nat) (port : Nat) : Address :=
  { m_addr_family := cfg.AF_INET
    m_address :=
      (AddressStorage.mk (fun _ => 0)).set_ipv4
        ⟨fun i => Fin.ofNat ((address % 4294967296) / 256 ^ (3 - i.val))⟩
    m_port := port % 65536 }

/-- Modelled from the spec: the constructor
`Address(const IPv6AddressBytes *, u16 port)` is only declared in `address.h`;
its body is in `address.cpp`, which is not among the shown sources.  Spec, 4.A:
"From `(16-byte IPv6 address, u16 port)`: V6". -/
def Address.of_IPv6AddressBytes (cfg : Config) (ipv6_bytes : IPv6AddressBytes) (port : Nat) :
    Address :=
  { m_addr_family := cfg.AF_INET6
    m_address := ⟨ipv6_bytes.bytes⟩
    m_port := port % 65536 }

/-! ## Process-wide latch (`socket.cpp`, lines 38-59) -/

/-- The static `g_sockets_initialized` with its initial value. -/
def g_sockets_initialized : Bool := false

/-- The function `sockets_init` (POSIX build) as a transformer of the latch. -/
def sockets_init (_g : Bool) : Bool := true

/-- The function `sockets_cleanup` (POSIX build) as a transformer of the latch. -/
def sockets_cleanup (_g : Bool) : Bool := false

/-! ## Effects and outcomes -/

/-- A byte buffer handed to `Send` or `Receive`. -/
abbrev Buffer := List u8

/-- The generic `struct sockaddr *` argument: one of the two concrete layouts. -/
inductive sockaddr where
  | v4 (a : sockaddr_in)
  | v6 (a : sockaddr_in6)

/-- The system calls of `socket.cpp` with the arguments that vary. -/
inductive Syscall where
  | socket (domain : Nat)
  | setsockopt_v6only (fd : Int) (value : Int)
  | bind (fd : Int) (address : sockaddr)
  | sendto (fd : Int) (data : Buffer) (size : Int) (address : sockaddr)
  | poll (fd : Int) (timeout_ms : Int)
  | recvfrom (fd : Int) (size : Int)

/-- The log streams written by `socket.cpp`. -/
inductive LogStream where
  | verbosestream
  | errorstream
  | tracestream
  deriving DecidableEq

/-- The exception classes thrown by `socket.cpp`, with their message. -/
inductive Exception where
  | SocketException (msg : String)
  | SendFailedException (msg : String)
  deriving DecidableEq

/-- How a call ends: it returns a value, throws, stops on a failed `assert`,
or (only for the remainder by a zero loss constant) has no defined behaviour. -/
inductive Outcome (α : Type) where
  | returned (v : α)
  | threw (e : Exception)
  | assertion_failed
  | undefined_behaviour
  deriving DecidableEq

/-- What the environment answers during one call: the return values of the
system calls, `errno` after a failing one and its `strerror` text, what
`recvfrom` leaves in the address struct and the buffer, and the value drawn
by `myrand()` (defined in `util/numeric`, outside the shown sources). -/
structure Env where
  socket_ret : Int
  setsockopt_ret : Int
  bind_ret : Int
  sendto_ret : Int
  poll_ret : Int
  poll_revents : Int
  errno : Int
  strerror : Int → String
  recvfrom_ret : Int
  recvfrom_addr : sockaddr_in
  recvfrom_addr6 : sockaddr_in6
  recvfrom_data : Buffer
  myrand : Nat

/-- The class `UDPSocket` (declared in `socket.h`): its three data members. -/
structure UDPSocket where
  m_handle : Int
  m_timeout_ms : Int
  m_addr_family : Nat

/-- Result of one call of an endpoint operation. -/
structure Run (α : Type) where
  outcome : Outcome α
  sock : UDPSocket
  syscalls : List Syscall
  logs : List (LogStream × String)

/-- Result of one call of `Receive`, which also owns the two out-parameters. -/
structure RecvRun where
  outcome : Outcome Int
  sock : UDPSocket
  sender : Address
  data : Buffer
  syscalls : List Syscall
  logs : List (LogStream × String)

/-- Modelled from the spec: the macro `MYMAX` of `util/numeric.h` is not among
the shown sources.  Spec, 4.C: "Clamp `max_size` to non-negative", that is the
larger of the two arguments. -/
def MYMAX (a b : Int) : Int := if a > b then a else b

/-! ## UDPSocket (`socket.cpp`) -/

/-- The sockaddr built in the `AF_INET6` branch of `Bind` and of `Send`. -/
def make_sockaddr_in6 (cfg : Config) (addr : Address) : sockaddr_in6 :=
  { sin6_family := cfg.AF_INET6
    sin6_addr := addr.getAddress6
    sin6_port := htons cfg addr.getPort }

/-- The sockaddr built in the other branch of `Bind` and of `Send`. -/
def make_sockaddr_in (cfg : Config) (addr : Address) : sockaddr_in :=
  { sin_family := cfg.AF_INET
    sin_addr := addr.getAddress
    sin_port := htons cfg addr.getPort }

/-- The method `UDPSocket::setTimeoutMs`. -/
def UDPSocket.setTimeoutMs (self : UDPSocket) (timeout_ms : Int) : UDPSocket :=
  { self with m_timeout_ms := timeout_ms }

/-- The method `UDPSocket::init`; `g` is the value of `g_sockets_initialized`. -/
def UDPSocket.init (g : Bool) (cfg : Config) (env : Env) (self : UDPSocket)
    (ipv6 noExceptions : Bool) : Run Bool :=
  if !g then
    ⟨.returned false, self, [], [(.verbosestream, "Sockets not initialized")]⟩
  else if self.m_handle ≥ 0 then
    let msg := "Cannot initialize socket twice"
    if noExceptions then
      ⟨.returned false, self, [], [(.verbosestream, msg)]⟩
    else
      ⟨.threw (.SocketException msg), self, [], [(.verbosestream, msg)]⟩
  else
    let family := if ipv6 then cfg.AF_INET6 else cfg.AF_INET
    let s1 : UDPSocket := { self with m_addr_family := family, m_handle := env.socket_ret }
    if s1.m_handle < 0 then
      let msg := "Failed to create socket: " ++ env.strerror env.errno
      if noExceptions then
        ⟨.returned false, s1, [.socket family], [(.verbosestream, msg)]⟩
      else
        ⟨.threw (.SocketException msg), s1, [.socket family], [(.verbosestream, msg)]⟩
    else
      ⟨.returned true, s1.setTimeoutMs 0, [.socket family], []⟩

/-- The method `UDPSocket::Bind`. -/
def UDPSocket.Bind (cfg : Config) (env : Env) (self : UDPSocket) (addr : Address) : Run Unit :=
  if addr.getFamily ≠ self.m_addr_family then
    let errmsg := "Socket and bind address families do not match"
    ⟨.threw (.SocketException errmsg), self, [], [(.errorstream, "Bind failed: " ++ errmsg)]⟩
  else if self.m_addr_family = cfg.AF_INET6 ∧ env.setsockopt_ret ≠ 0 then
    let errmsg := env.strerror env.errno
    ⟨.threw (.SocketException errmsg), self, [.setsockopt_v6only self.m_handle 0],
      [(.errorstream,
        "Failed to disable V6ONLY: " ++ errmsg ++ "\nTry disabling ipv6_server to fix this.")]⟩
  else
    let calls : List Syscall :=
      if self.m_addr_family = cfg.AF_INET6 then
        [.setsockopt_v6only self.m_handle 0,
          .bind self.m_handle (.v6 (make_sockaddr_in6 cfg addr))]
      else
        [.bind self.m_handle (.v4 (make_sockaddr_in cfg addr))]
    let ret := env.bind_ret
    if ret < 0 then
      ⟨.threw (.SocketException "Failed to bind socket"), self, calls,
        [(.tracestream, toString self.m_handle ++ ": Bind failed: " ++ env.strerror env.errno)]⟩
    else
      ⟨.returned (), self, calls, []⟩

/-- The method `UDPSocket::Send`.  The remainder `myrand() % 0` has no defined
behaviour; it is only evaluated when `INTERNET_SIMULATOR` is non-zero. -/
def UDPSocket.Send (cfg : Config) (env : Env) (self : UDPSocket) (destination : Address)
    (data : Buffer) (size : Int) : Run Unit :=
  if cfg.INTERNET_SIMULATOR ≠ 0 ∧ cfg.INTERNET_SIMULATOR_PACKET_LOSS = 0 then
    ⟨.undefined_behaviour, self, [], []⟩
  else
    let dumping_packet : Bool :=
      if cfg.INTERNET_SIMULATOR ≠ 0 then
        env.myrand % cfg.INTERNET_SIMULATOR_PACKET_LOSS == 0
      else false
    if dumping_packet then
      ⟨.returned (), self, [],
        [(.tracestream, "UDPSocket::Send(): INTERNET_SIMULATOR: dumping packet.")]⟩
    else if destination.getFamily ≠ self.m_addr_family then
      ⟨.threw (.SendFailedException "Address family mismatch"), self, [], []⟩
    else
      let address : sockaddr :=
        if self.m_addr_family = cfg.AF_INET6 then .v6 (make_sockaddr_in6 cfg destination)
        else .v4 (make_sockaddr_in cfg destination)
      let sent := env.sendto_ret
      if sent ≠ size then
        ⟨.threw (.SendFailedException "Failed to send packet"), self,
          [.sendto self.m_handle data size address], []⟩
      else
        ⟨.returned (), self, [.sendto self.m_handle data size address], []⟩

/-- The method `UDPSocket::WaitData` (POSIX build). -/
def UDPSocket.WaitData (cfg : Config) (env : Env) (self : UDPSocket) (timeout_ms : Int) :
    Run Bool :=
  let timeout_ms := MYMAX timeout_ms 0
  let result := env.poll_ret
  if result = 0 then
    ⟨.returned false, self, [.poll self.m_handle timeout_ms], []⟩
  else if result > 0 then
    ⟨.returned (env.poll_revents != 0), self, [.poll self.m_handle timeout_ms], []⟩
  else
    let e := env.errno
    if e = cfg.EINTR ∨ e = cfg.EBADF then
      ⟨.returned false, self, [.poll self.m_handle timeout_ms], []⟩
    else
      ⟨.threw (.SocketException "poll failed"), self, [.poll self.m_handle timeout_ms],
        [(.tracestream, toString self.m_handle ++ ": poll failed: " ++ env.strerror e)]⟩

/-- The method `UDPSocket::Receive`.  `sender` and `data` are the contents of
the two out-parameters before the call. -/
def UDPSocket.Receive (cfg : Config) (env : Env) (self : UDPSocket) (sender : Address)
    (data : Buffer) (size : Int) : RecvRun :=
  if ¬ (self.m_timeout_ms ≥ 0) then
    ⟨.assertion_failed, self, sender, data, [], []⟩
  else
    let w := self.WaitData cfg env self.m_timeout_ms
    match w.outcome with
    | .threw e => ⟨.threw e, w.sock, sender, data, w.syscalls, w.logs⟩
    | .assertion_failed => ⟨.assertion_failed, w.sock, sender, data, w.syscalls, w.logs⟩
    | .undefined_behaviour => ⟨.undefined_behaviour, w.sock, sender, data, w.syscalls, w.logs⟩
    | .returned false => ⟨.returned (-1), w.sock, sender, data, w.syscalls, w.logs⟩
    | .returned true =>
      let size := MYMAX size 0
      let calls := w.syscalls ++ [.recvfrom self.m_handle size]
      let received := env.recvfrom_ret
      if self.m_addr_family = cfg.AF_INET6 then
        let address := env.recvfrom_addr6
        if received < 0 then
          ⟨.returned (-1), w.sock, sender, env.recvfrom_data, calls, w.logs⟩
        else
          let address_port := ntohs cfg address.sin6_port
          let bytes : IPv6AddressBytes := ⟨address.sin6_addr.s6_addr⟩
          ⟨.returned received, w.sock, Address.of_IPv6AddressBytes cfg bytes address_port,
            env.recvfrom_data, calls, w.logs⟩
      else
        let address := env.recvfrom_addr
        if received < 0 then
          ⟨.returned (-1), w.sock, sender, env.recvfrom_data, calls, w.logs⟩
        else
          let address_ip := ntohl cfg (address.sin_addr.s_addr cfg)
          let address_port := ntohs cfg address.sin_port
          ⟨.returned received, w.sock, Address.of_u32 cfg address_ip address_port,
            env.recvfrom_data, calls, w.logs⟩

/-- Whether a `Send` was silently dropped: it returned normally and issued no
system call. -/
def Run.dropped (r : Run Unit) : Bool :=
  match r.outcome, r.syscalls with
  | .returned _, [] => true
  | _, _ => false

/-- Whether `poll` is among the system calls issued. -/
def polled (calls : List Syscall) : Bool :=
  calls.any fun c =>
    match c with
    | .poll _ _ => true
    | _ => false

/-! ## Sequences of calls on one endpoint -/

/-- One call a consumer can make on the endpoint or on the process-wide latch. -/
inductive Call where
  | sockets_init
  | sockets_cleanup
  | init (ipv6 noExceptions : Bool)
  | Bind (addr : Address)
  | Send (destination : Address) (data : Buffer) (size : Int)
  | Receive (sender : Address) (data : Buffer) (size : Int)
  | setTimeoutMs (timeout_ms : Int)
  | WaitData (timeout_ms : Int)

/-- The latch together with one endpoint. -/
structure Process where
  latch : Bool
  sock : UDPSocket

/-- Whether a call ended the process (failed `assert`, undefined behaviour). -/
def Outcome.stopped {α : Type} : Outcome α → Bool
  | .assertion_failed => true
  | .undefined_behaviour => true
  | _ => false

/-- Whether the outcome is the return value `true`. -/
def Outcome.returnedTrue : Outcome Bool → Bool
  | .returned true => true
  | _ => false

/-- One call with the answers of the environment: the process afterwards
(`none` when the call ended it) and whether the call was an `init` that
returned `true`.  A thrown exception is taken to be caught by the consumer. -/
def Process.step (cfg : Config) (p : Process) (c : Call) (env : Env) : Option Process × Bool :=
  match c with
  | .sockets_init => (some { p with latch := sockets_init p.latch }, false)
  | .sockets_cleanup => (some { p with latch := sockets_cleanup p.latch }, false)
  | .init ipv6 noExceptions =>
    let r := UDPSocket.init p.latch cfg env p.sock ipv6 noExceptions
    (if r.outcome.stopped then none else some { p with sock := r.sock }, r.outcome.returnedTrue)
  | .Bind addr =>
    let r := p.sock.Bind cfg env addr
    (if r.outcome.stopped then none else some { p with sock := r.sock }, false)
  | .Send destination data size =>
    let r := p.sock.Send cfg env destination data size
    (if r.outcome.stopped then none else some { p with sock := r.sock }, false)
  | .Receive sender data size =>
    let r := p.sock.Receive cfg env sender data size
    (if r.outcome.stopped then none else some { p with sock := r.sock }, false)
  | .setTimeoutMs timeout_ms => (some { p with sock := p.sock.setTimeoutMs timeout_ms }, false)
  | .WaitData timeout_ms =>
    let r := p.sock.WaitData cfg env timeout_ms
    (if r.outcome.stopped then none else some { p with sock := r.sock }, false)

/-- Number of `init` calls that return `true` while the calls are made in order. -/
def Process.initSuccesses (cfg : Config) : Process → List (Call × Env) → Nat
  | _, [] => 0
  | p, (c, env) :: rest =>
    match p.step cfg c env with
    | (none, b) => b.toNat
    | (some q, b) => b.toNat + Process.initSuccesses cfg q rest

/-! ## Concrete values used to instantiate the statements -/

/-- The constants of a little-endian Linux build with the simulator switched on. -/
def linux_simulating : Config :=
  { INTERNET_SIMULATOR := 1
    INTERNET_SIMULATOR_PACKET_LOSS := 10
    AF_INET := 2
    AF_INET6 := 10
    EINTR := 4
    EBADF := 9
    little_endian := true }

/-- The constants of a little-endian Linux build with the simulator switched off. -/
def linux_plain : Config := { linux_simulating with INTERNET_SIMULATOR := 0 }

/-- An address with every octet zero. -/
def zero_storage : AddressStorage := ⟨fun _ => 0⟩

/-- An environment in which every system call succeeds, data is ready, a
datagram of five octets from `0.0.0.0:0` arrives, and `myrand()` draws 0. -/
def env_ready : Env :=
  { socket_ret := 3
    setsockopt_ret := 0
    bind_ret := 0
    sendto_ret := 5
    poll_ret := 1
    poll_revents := 1
    errno := 0
    strerror := fun _ => "Success"
    recvfrom_ret := 5
    recvfrom_addr := ⟨2, 0, zero_storage.ipv4⟩
    recvfrom_addr6 := ⟨10, 0, zero_storage.ipv6⟩
    recvfrom_data := [1, 2, 3, 4, 5]
    myrand := 0 }

/-- An open V4 endpoint with handle 3. -/
def sock_v4 : UDPSocket := ⟨3, 0, 2⟩

/-- An endpoint that holds no handle yet. -/
def sock_fresh : UDPSocket := ⟨-1, 0, 0⟩

/-- The V6 any-address with port 30000. -/
def addr_v6 : Address := ⟨10, zero_storage, 30000⟩

/-- The V4 any-address with port 30000. -/
def addr_v4 : Address := ⟨2, zero_storage, 30000⟩

/-- The default-constructed address: family 0, port 0. -/
def addr_none : Address := ⟨0, zero_storage, 0⟩

/-! ## Properties -/

/-! ### Frame lemmas: which calls touch the endpoint -/

/-- `Bind` never assigns a data member. -/
theorem Bind_sock (cfg : Config) (env : Env) (self : UDPSocket) (addr : Address) :
    (self.Bind cfg env addr).sock = self := by
  unfold UDPSocket.Bind
  dsimp only
  split_ifs <;> rfl

/-- `Send` never assigns a data member. -/
theorem Send_sock (cfg : Config) (env : Env) (self : UDPSocket) (destination : Address)
    (data : Buffer) (size : Int) : (self.Send cfg env destination data size).sock = self := by
  unfold UDPSocket.Send
  dsimp only
  split_ifs <;> rfl

/-- `WaitData` never assigns a data member. -/
theorem WaitData_sock (cfg : Config) (env : Env) (self : UDPSocket) (timeout_ms : Int) :
    (self.WaitData cfg env timeout_ms).sock = self := by
  unfold UDPSocket.WaitData
  dsimp only
  split_ifs <;> rfl

/-- `Receive` never assigns a data member. -/
theorem Receive_sock (cfg : Config) (env : Env) (self : UDPSocket) (sender : Address)
    (data : Buffer) (size : Int) : (self.Receive cfg env sender data size).sock = self := by
  unfold UDPSocket.Receive
  dsimp only
  by_cases ht : self.m_timeout_ms ≥ 0
  · rw [if_neg (not_not.mpr ht)]
    split <;> (try split_ifs) <;> simp [WaitData_sock]
  · rw [if_pos ht]

/-- With a non-negative timeout the argument of `poll` is the timeout itself. -/
theorem MYMAX_of_nonneg (t : Int) (h : 0 ≤ t) : MYMAX t 0 = t := by
  unfold MYMAX
  split <;> omega

/-- An endpoint that holds a handle is rejected by `init` when the latch is set. -/
theorem init_of_handle (cfg : Config) (env : Env) (self : UDPSocket) (ipv6 noExceptions : Bool)
    (h : 0 ≤ self.m_handle) :
    UDPSocket.init true cfg env self ipv6 noExceptions =
      if noExceptions then
        ⟨.returned false, self, [], [(.verbosestream, "Cannot initialize socket twice")]⟩
      else
        ⟨.threw (.SocketException "Cannot initialize socket twice"), self, [],
          [(.verbosestream, "Cannot initialize socket twice")]⟩ := by
  simp [UDPSocket.init, h]

/-- An `init` that returns `true` leaves a handle and the timeout 0. -/
theorem init_true (g : Bool) (cfg : Config) (env : Env) (self : UDPSocket)
    (ipv6 noExceptions : Bool)
    (h : (UDPSocket.init g cfg env self ipv6 noExceptions).outcome.returnedTrue = true) :
    0 ≤ (UDPSocket.init g cfg env self ipv6 noExceptions).sock.m_handle ∧
      (UDPSocket.init g cfg env self ipv6 noExceptions).sock.m_timeout_ms = 0 := by
  unfold UDPSocket.init at h ⊢
  dsimp only at h ⊢
  split_ifs at h ⊢ <;> simp_all [Outcome.returnedTrue, UDPSocket.setTimeoutMs]

/-- An `init` on an endpoint that holds a handle does not return `true`. -/
theorem init_not_true_of_handle (g : Bool) (cfg : Config) (env : Env) (self : UDPSocket)
    (ipv6 noExceptions : Bool) (h : 0 ≤ self.m_handle) :
    (UDPSocket.init g cfg env self ipv6 noExceptions).outcome.returnedTrue = false ∧
      (UDPSocket.init g cfg env self ipv6 noExceptions).sock = self := by
  unfold UDPSocket.init
  dsimp only
  split_ifs <;> simp_all [Outcome.returnedTrue]

/-- A step from a process whose endpoint holds a handle is not a successful
`init`, and the endpoint still holds a handle afterwards. -/
theorem step_of_handle (cfg : Config) (p : Process) (c : Call) (env : Env)
    (h : 0 ≤ p.sock.m_handle) :
    (p.step cfg c env).2 = false ∧ ∀ q, (p.step cfg c env).1 = some q → 0 ≤ q.sock.m_handle := by
  cases c with
  | sockets_init => simp [Process.step, h]
  | sockets_cleanup => simp [Process.step, h]
  | init ipv6 noExceptions =>
    have hi := init_not_true_of_handle p.latch cfg env p.sock ipv6 noExceptions h
    refine ⟨by simp [Process.step, hi.1], ?_⟩
    intro q hq
    simp only [Process.step] at hq
    split_ifs at hq
    simp only [Option.some.injEq] at hq
    rw [← hq, hi.2]
    exact h
  | Bind addr =>
    refine ⟨rfl, ?_⟩
    intro q hq
    simp only [Process.step] at hq
    split_ifs at hq
    simp only [Option.some.injEq] at hq
    rw [← hq, Bind_sock]
    exact h
  | Send destination data size =>
    refine ⟨rfl, ?_⟩
    intro q hq
    simp only [Process.step] at hq
    split_ifs at hq
    simp only [Option.some.injEq] at hq
    rw [← hq, Send_sock]
    exact h
  | Receive sender data size =>
    refine ⟨rfl, ?_⟩
    intro q hq
    simp only [Process.step] at hq
    split_ifs at hq
    simp only [Option.some.injEq] at hq
    rw [← hq, Receive_sock]
    exact h
  | setTimeoutMs timeout_ms =>
    refine ⟨rfl, ?_⟩
    intro q hq
    simp only [Process.step, Option.some.injEq] at hq
    rw [← hq]
    exact h
  | WaitData timeout_ms =>
    refine ⟨rfl, ?_⟩
    intro q hq
    simp only [Process.step] at hq
    split_ifs at hq
    simp only [Option.some.injEq] at hq
    rw [← hq, WaitData_sock]
    exact h

/-- Once the endpoint holds a handle no later `init` returns `true`. -/
theorem initSuccesses_of_handle (cfg : Config) (cs : List (Call × Env)) :
    ∀ p : Process, 0 ≤ p.sock.m_handle → Process.initSuccesses cfg p cs = 0 := by
  induction cs with
  | nil => intro p _; rfl
  | cons ce rest ih =>
    intro p h
    obtain ⟨c, env⟩ := ce
    have hs := step_of_handle cfg p c env h
    unfold Process.initSuccesses
    rcases hstep : p.step cfg c env with ⟨o, b⟩
    rw [hstep] at hs
    simp only at hs
    cases o with
    | none => simp [hs.1]
    | some q => simp [hs.1, ih q (hs.2 q rfl)]

/-- A step that is a successful `init` leaves an endpoint that holds a handle. -/
theorem step_true (cfg : Config) (p : Process) (c : Call) (env : Env)
    (h : (p.step cfg c env).2 = true) :
    ∀ q, (p.step cfg c env).1 = some q → 0 ≤ q.sock.m_handle := by
  cases c with
  | init ipv6 noExceptions =>
    have ht : (UDPSocket.init p.latch cfg env p.sock ipv6 noExceptions).outcome.returnedTrue
        = true := by simpa [Process.step] using h
    intro q hq
    simp only [Process.step] at hq
    split_ifs at hq
    simp only [Option.some.injEq] at hq
    rw [← hq]
    exact (init_true p.latch cfg env p.sock ipv6 noExceptions ht).1
  | _ => simp [Process.step] at h

/-- In any sequence of calls at most one `init` returns `true`. -/
theorem initSuccesses_le_one (cfg : Config) (cs : List (Call × Env)) :
    ∀ p : Process, Process.initSuccesses cfg p cs ≤ 1 := by
  induction cs with
  | nil => intro p; simp [Process.initSuccesses]
  | cons ce rest ih =>
    intro p
    obtain ⟨c, env⟩ := ce
    unfold Process.initSuccesses
    have ht := step_true cfg p c env
    rcases hstep : p.step cfg c env with ⟨o, b⟩
    rw [hstep] at ht
    simp only at ht
    cases o with
    | none => cases b <;> simp
    | some q =>
      cases b with
      | false => simpa using ih q
      | true => simp [initSuccesses_of_handle cfg rest q (ht rfl q rfl)]

/-- C8: while the process-wide latch is not set (its initial value, or the
value left by `sockets_cleanup`), `init` returns `false` and does not throw,
for both values of `ipv6` and of `noExceptions`; it issues no system call (so
no socket is allocated) and leaves handle, family and timeout as they were. -/
theorem init_without_latch (cfg : Config) (env : Env) (self : UDPSocket)
    (ipv6 noExceptions : Bool) (g : Bool) :
    (UDPSocket.init g_sockets_initialized cfg env self ipv6 noExceptions).outcome
        = .returned false ∧
      (UDPSocket.init g_sockets_initialized cfg env self ipv6 noExceptions).syscalls = [] ∧
      (UDPSocket.init g_sockets_initialized cfg env self ipv6 noExceptions).sock = self ∧
      (UDPSocket.init (sockets_cleanup g) cfg env self ipv6 noExceptions).outcome
        = .returned false ∧
      (UDPSocket.init (sockets_cleanup g) cfg env self ipv6 noExceptions).syscalls = [] ∧
      (UDPSocket.init (sockets_cleanup g) cfg env self ipv6 noExceptions).sock = self := by
  simp [UDPSocket.init, g_sockets_initialized, sockets_cleanup]

/-- C2: `Bind` with an address whose family differs from the endpoint family
throws `SocketException`, issues no system call (neither `setsockopt` nor
`bind`) and leaves handle, family and timeout as they were. -/
theorem Bind_family_mismatch (cfg : Config) (env : Env) (self : UDPSocket) (addr : Address)
    (h : addr.getFamily ≠ self.m_addr_family) :
    (self.Bind cfg env addr).outcome
        = .threw (.SocketException "Socket and bind address families do not match") ∧
      (self.Bind cfg env addr).syscalls = [] ∧
      (self.Bind cfg env addr).sock = self := by
  simp [UDPSocket.Bind, h]

/-- Instance of `Bind_family_mismatch`: a V6 address on a V4 endpoint. -/
theorem Bind_family_mismatch_witness :
    addr_v6.getFamily ≠ sock_v4.m_addr_family ∧
      (sock_v4.Bind linux_plain env_ready addr_v6).outcome
        = .threw (.SocketException "Socket and bind address families do not match") ∧
      (sock_v4.Bind linux_plain env_ready addr_v6).syscalls = [] ∧
      (sock_v4.Bind linux_plain env_ready addr_v6).sock = sock_v4 :=
  ⟨by decide, Bind_family_mismatch linux_plain env_ready sock_v4 addr_v6 (by decide)⟩

/-- C3: with a non-negative timeout, when `poll` returns 0 `Receive` returns
`-1`; the only system call is that `poll` (no `recvfrom`), nothing is thrown or
logged, and the sender, the buffer and the endpoint are as before the call. -/
theorem Receive_timeout (cfg : Config) (env : Env) (self : UDPSocket) (sender : Address)
    (data : Buffer) (size : Int) (ht : 0 ≤ self.m_timeout_ms) (hp : env.poll_ret = 0) :
    self.Receive cfg env sender data size =
      ⟨.returned (-1), self, sender, data, [.poll self.m_handle self.m_timeout_ms], []⟩ := by
  have hm : MYMAX self.m_timeout_ms 0 = self.m_timeout_ms := by
    unfold MYMAX
    split <;> omega
  simp [UDPSocket.Receive, UDPSocket.WaitData, ht, hp, hm]

/-- Instance of `Receive_timeout`: timeout 0 and no data. -/
theorem Receive_timeout_witness :
    0 ≤ sock_v4.m_timeout_ms ∧ ({ env_ready with poll_ret := 0 } : Env).poll_ret = 0 ∧
      sock_v4.Receive linux_plain { env_ready with poll_ret := 0 } addr_none [] 16 =
        ⟨.returned (-1), sock_v4, addr_none, [], [.poll sock_v4.m_handle sock_v4.m_timeout_ms],
          []⟩ :=
  ⟨by decide, rfl,
    Receive_timeout linux_plain { env_ready with poll_ret := 0 } sock_v4 addr_none [] 16
      (by decide) rfl⟩

/-- `Receive` reaches its `poll` exactly when its assertion holds. -/
theorem Receive_polled_iff (cfg : Config) (env : Env) (self : UDPSocket) (sender : Address)
    (data : Buffer) (size : Int) :
    polled (self.Receive cfg env sender data size).syscalls = true ↔ 0 ≤ self.m_timeout_ms := by
  have hw : ∀ t, polled (self.WaitData cfg env t).syscalls = true := by
    intro t
    unfold UDPSocket.WaitData
    dsimp only
    split_ifs <;> rfl
  unfold UDPSocket.Receive
  dsimp only
  by_cases ht : self.m_timeout_ms ≥ 0
  · rw [if_neg (not_not.mpr ht)]
    have h := hw self.m_timeout_ms
    simp only [polled] at h
    split <;> (try split_ifs) <;> simp [polled, h, ht]
  · rw [if_pos ht]
    simp [polled, ht]

/-- C4: when the `poll` of a `Receive` fails (it is issued and its result is
negative): if `errno` is `EINTR` or `EBADF`, `Receive` returns `-1`, throws
nothing, issues no `recvfrom` and changes nothing; for every other `errno` it
throws `SocketException("poll failed")`.  For every endpoint, `Receive` throws
if and only if its `poll` fails with an `errno` other than `EINTR` and
`EBADF`.  (The `poll` is issued exactly when the timeout is non-negative.) -/
theorem Receive_poll_failure (cfg : Config) (env : Env) (self : UDPSocket) (sender : Address)
    (data : Buffer) (size : Int) :
    (polled (self.Receive cfg env sender data size).syscalls = true → env.poll_ret < 0 →
        (env.errno = cfg.EINTR ∨ env.errno = cfg.EBADF) →
        self.Receive cfg env sender data size =
          ⟨.returned (-1), self, sender, data, [.poll self.m_handle self.m_timeout_ms], []⟩) ∧
      (polled (self.Receive cfg env sender data size).syscalls = true → env.poll_ret < 0 →
        ¬ (env.errno = cfg.EINTR ∨ env.errno = cfg.EBADF) →
        (self.Receive cfg env sender data size).outcome
            = .threw (.SocketException "poll failed") ∧
          (self.Receive cfg env sender data size).syscalls
            = [.poll self.m_handle self.m_timeout_ms]) ∧
      ((∃ e, (self.Receive cfg env sender data size).outcome = .threw e) ↔
        (polled (self.Receive cfg env sender data size).syscalls = true ∧ env.poll_ret < 0 ∧
          ¬ (env.errno = cfg.EINTR ∨ env.errno = cfg.EBADF))) ∧
      (polled (self.Receive cfg env sender data size).syscalls = true ↔
        0 ≤ self.m_timeout_ms) := by
  rw [Receive_polled_iff]
  refine ⟨?_, ?_, ?_, Iff.rfl⟩
  · intro ht hp he
    have h0 : env.poll_ret ≠ 0 := by omega
    have h1 : ¬ env.poll_ret > 0 := by omega
    simp [UDPSocket.Receive, UDPSocket.WaitData, ht, h0, h1, he, MYMAX_of_nonneg]
  · intro ht hp he
    have h0 : env.poll_ret ≠ 0 := by omega
    have h1 : ¬ env.poll_ret > 0 := by omega
    simp [UDPSocket.Receive, UDPSocket.WaitData, ht, h0, h1, he, MYMAX_of_nonneg]
  · unfold UDPSocket.Receive UDPSocket.WaitData
    by_cases ht : 0 ≤ self.m_timeout_ms
    · by_cases h0 : env.poll_ret = 0
      · simp [ht, h0]
      · by_cases h1 : env.poll_ret > 0
        · have h2 : ¬ env.poll_ret < 0 := by omega
          cases hr : (env.poll_revents != 0)
          · simp [ht, h0, h1, h2, hr]
          · simp only [ht, h0, h1, h2, hr]
            split_ifs <;> simp
        · have h2 : env.poll_ret < 0 := by omega
          by_cases he : env.errno = cfg.EINTR ∨ env.errno = cfg.EBADF
          · simp [ht, h0, h1, h2, he]
          · simp [ht, h0, h1, h2, he]
    · simp [ht]

/-- Instance of `Receive_poll_failure`: `poll` fails with `EBADF` (9) and with
`EIO` (5) on an endpoint whose timeout is 0. -/
theorem Receive_poll_failure_witness :
    sock_v4.Receive linux_plain { env_ready with poll_ret := -1, errno := 9 } addr_none [] 16 =
        ⟨.returned (-1), sock_v4, addr_none, [],
          [.poll sock_v4.m_handle sock_v4.m_timeout_ms], []⟩ ∧
      (sock_v4.Receive linux_plain { env_ready with poll_ret := -1, errno := 5 } addr_none []
          16).outcome = .threw (.SocketException "poll failed") :=
  ⟨(Receive_poll_failure linux_plain { env_ready with poll_ret := -1, errno := 9 } sock_v4
      addr_none [] 16).1 (by decide) (by decide) (by decide),
    ((Receive_poll_failure linux_plain { env_ready with poll_ret := -1, errno := 5 } sock_v4
      addr_none [] 16).2.1 (by decide) (by decide) (by decide)).1⟩

/-- C9: with the latch set, `init` on an endpoint that holds a handle throws
`SocketException` when `noExceptions` is false and returns `false` when it is
true; either way no system call is issued (no socket is allocated) and handle,
family and timeout stay as they were.  Hence in every sequence of calls on one
endpoint at most one `init` returns `true`. -/
theorem init_twice_fails (cfg : Config) (env : Env) (self : UDPSocket) (ipv6 : Bool) (g : Bool)
    (h : 0 ≤ self.m_handle) :
    (UDPSocket.init (sockets_init g) cfg env self ipv6 false).outcome
        = .threw (.SocketException "Cannot initialize socket twice") ∧
      (UDPSocket.init (sockets_init g) cfg env self ipv6 true).outcome = .returned false ∧
      (∀ noExceptions,
        (UDPSocket.init (sockets_init g) cfg env self ipv6 noExceptions).syscalls = [] ∧
        (UDPSocket.init (sockets_init g) cfg env self ipv6 noExceptions).sock = self) ∧
      (∀ (p : Process) (cs : List (Call × Env)), Process.initSuccesses cfg p cs ≤ 1) := by
  refine ⟨?_, ?_, ?_, fun p cs => initSuccesses_le_one cfg cs p⟩
  · simp [sockets_init, init_of_handle, h]
  · simp [sockets_init, init_of_handle, h]
  · intro noExceptions
    cases noExceptions <;> simp [sockets_init, init_of_handle, h]

/-- Instance of `init_twice_fails`: a second `init` on an open V4 endpoint, and
a sequence of two `init` calls on a fresh endpoint of which only the first
returns `true`. -/
theorem init_twice_fails_witness :
    0 ≤ sock_v4.m_handle ∧
      (UDPSocket.init (sockets_init false) linux_plain env_ready sock_v4 false false).outcome
        = .threw (.SocketException "Cannot initialize socket twice") ∧
      Process.initSuccesses linux_plain ⟨true, sock_fresh⟩
        [(.init false true, env_ready), (.init false true, env_ready)] = 1 :=
  ⟨by decide, (init_twice_fails linux_plain env_ready sock_v4 false false (by decide)).1,
    by decide⟩

/-- C6: the code at the failing input.  After an `init` that returns `true`
the timeout is 0; `setTimeoutMs(-1)` is not rejected and stores `-1`; the next
`Receive` then violates its own `assert(m_timeout_ms >= 0)` and issues no
system call, while `WaitData` called with `-1` clamps it and polls with
timeout 0. -/
theorem setTimeoutMs_stores_negative :
    (UDPSocket.init true linux_plain env_ready sock_fresh false false).outcome
        = .returned true ∧
      (UDPSocket.init true linux_plain env_ready sock_fresh false false).sock.m_timeout_ms = 0 ∧
      ((UDPSocket.init true linux_plain env_ready sock_fresh false false).sock.setTimeoutMs
          (-1)).m_timeout_ms = -1 ∧
      (((UDPSocket.init true linux_plain env_ready sock_fresh false false).sock.setTimeoutMs
          (-1)).Receive linux_plain env_ready addr_none [] 16).outcome = .assertion_failed ∧
      (((UDPSocket.init true linux_plain env_ready sock_fresh false false).sock.setTimeoutMs
          (-1)).Receive linux_plain env_ready addr_none [] 16).syscalls = [] ∧
      (((UDPSocket.init true linux_plain env_ready sock_fresh false false).sock.setTimeoutMs
          (-1)).WaitData linux_plain env_ready (-1)).syscalls = [.poll 3 0] := by
  refine ⟨by decide, by decide, by decide, by decide, rfl, rfl⟩

/-- C1, counterexample: with the simulator on and a draw that is a multiple of
the loss constant, `Send` to an address of the other family returns normally
instead of throwing. -/
theorem Send_family_mismatch_counterexample :
    ¬ ∀ (cfg : Config) (env : Env) (self : UDPSocket) (destination : Address) (data : Buffer)
        (size : Int), destination.getFamily ≠ self.m_addr_family →
        ∃ msg, (self.Send cfg env destination data size).outcome
          = .threw (.SendFailedException msg) := by
  intro h
  obtain ⟨msg, hm⟩ := h linux_simulating env_ready sock_v4 addr_v6 [] 0 (by decide)
  have hr : (sock_v4.Send linux_simulating env_ready addr_v6 [] 0).outcome = .returned () := by
    decide
  rw [hr] at hm
  cases hm

/-- C1, amended: for a destination whose family differs from the endpoint
family, and constants for which the draw is defined (simulator off, or loss
constant at least 1), `Send` issues no system call and leaves the endpoint as
it was; it throws `SendFailedException("Address family mismatch")` whenever
the simulator does not dump the packet (simulator off, or draw not a multiple
of the loss constant), and returns normally when the simulator dumps it. -/
theorem Send_family_mismatch (cfg : Config) (env : Env) (self : UDPSocket)
    (destination : Address) (data : Buffer) (size : Int)
    (h : destination.getFamily ≠ self.m_addr_family)
    (hD : cfg.INTERNET_SIMULATOR = 0 ∨ 0 < cfg.INTERNET_SIMULATOR_PACKET_LOSS) :
    (self.Send cfg env destination data size).syscalls = [] ∧
      (self.Send cfg env destination data size).sock = self ∧
      (cfg.INTERNET_SIMULATOR = 0 ∨ env.myrand % cfg.INTERNET_SIMULATOR_PACKET_LOSS ≠ 0 →
        (self.Send cfg env destination data size).outcome
          = .threw (.SendFailedException "Address family mismatch")) ∧
      (cfg.INTERNET_SIMULATOR ≠ 0 ∧ env.myrand % cfg.INTERNET_SIMULATOR_PACKET_LOSS = 0 →
        (self.Send cfg env destination data size).outcome = .returned ()) := by
  have hU : ¬ (cfg.INTERNET_SIMULATOR ≠ 0 ∧ cfg.INTERNET_SIMULATOR_PACKET_LOSS = 0) := by
    rintro ⟨h1, h2⟩
    rcases hD with h3 | h3
    · exact h1 h3
    · omega
  refine ⟨?_, Send_sock cfg env self destination data size, ?_, ?_⟩
  · unfold UDPSocket.Send
    dsimp only
    rw [if_neg hU]
    split_ifs <;> simp_all
  · intro hn
    unfold UDPSocket.Send
    dsimp only
    rw [if_neg hU]
    rcases hn with hn | hn
    · simp [hn, h]
    · simp [hn, h]
  · rintro ⟨h1, h2⟩
    unfold UDPSocket.Send
    dsimp only
    rw [if_neg hU]
    simp [h1, h2]

/-- Instance of `Send_family_mismatch`: a V6 destination on a V4 endpoint with
the simulator off. -/
theorem Send_family_mismatch_witness :
    addr_v6.getFamily ≠ sock_v4.m_addr_family ∧
      (sock_v4.Send linux_plain env_ready addr_v6 [] 0).syscalls = [] ∧
      (sock_v4.Send linux_plain env_ready addr_v6 [] 0).outcome
        = .threw (.SendFailedException "Address family mismatch") :=
  ⟨by decide,
    (Send_family_mismatch linux_plain env_ready sock_v4 addr_v6 [] 0 (by decide)
      (Or.inl rfl)).1,
    (Send_family_mismatch linux_plain env_ready sock_v4 addr_v6 [] 0 (by decide)
      (Or.inl rfl)).2.2.1 (Or.inl rfl)⟩

/-- With the simulator on and a loss constant of at least 1, `Send` is dropped
exactly when the draw is a multiple of the loss constant. -/
theorem Send_dropped_iff (cfg : Config) (env : Env) (self : UDPSocket) (destination : Address)
    (data : Buffer) (size : Int) (hs : cfg.INTERNET_SIMULATOR ≠ 0)
    (hD : 1 ≤ cfg.INTERNET_SIMULATOR_PACKET_LOSS) :
    (self.Send cfg env destination data size).dropped = true ↔
      env.myrand % cfg.INTERNET_SIMULATOR_PACKET_LOSS = 0 := by
  have hU : ¬ (cfg.INTERNET_SIMULATOR ≠ 0 ∧ cfg.INTERNET_SIMULATOR_PACKET_LOSS = 0) := by
    rintro ⟨_, h2⟩
    omega
  unfold UDPSocket.Send
  dsimp only
  rw [if_neg hU]
  by_cases hr : env.myrand % cfg.INTERNET_SIMULATOR_PACKET_LOSS = 0
  · simp [hs, hr, Run.dropped]
  · simp only [hs, hr, ne_eq, not_false_eq_true, if_true, beq_iff_eq, Bool.false_eq_true,
      if_false, iff_false]
    split_ifs <;> simp [Run.dropped]

/-- The two ways of saying that a `Send` was dropped agree. -/
theorem dropped_iff (r : Run Unit) :
    r.dropped = true ↔ (r.outcome = .returned () ∧ r.syscalls = []) := by
  obtain ⟨o, s, c, l⟩ := r
  cases o <;> cases c <;> simp [Run.dropped]

/-- C10: with the simulator on and loss constant `D ≥ 1`, `Send` is silently
dropped (returns normally, issues no `sendto`) exactly when the draw `r`
satisfies `r mod D = 0`; among any `D` consecutive draws `k*D, ..., k*D + D-1`
exactly one is dropped; with `D = 1` every send is dropped.  With the
simulator off no send is dropped. -/
theorem Send_simulator_drop (cfg : Config) (env : Env) (self : UDPSocket)
    (destination : Address) (data : Buffer) (size : Int) :
    (cfg.INTERNET_SIMULATOR ≠ 0 → 1 ≤ cfg.INTERNET_SIMULATOR_PACKET_LOSS →
        (((self.Send cfg env destination data size).outcome = .returned () ∧
            (self.Send cfg env destination data size).syscalls = []) ↔
          env.myrand % cfg.INTERNET_SIMULATOR_PACKET_LOSS = 0)) ∧
      (cfg.INTERNET_SIMULATOR ≠ 0 → 1 ≤ cfg.INTERNET_SIMULATOR_PACKET_LOSS → ∀ k : Nat,
        ((List.range cfg.INTERNET_SIMULATOR_PACKET_LOSS).filter (fun i =>
          (self.Send cfg { env with myrand := k * cfg.INTERNET_SIMULATOR_PACKET_LOSS + i }
            destination data size).dropped)).length = 1) ∧
      (cfg.INTERNET_SIMULATOR ≠ 0 → cfg.INTERNET_SIMULATOR_PACKET_LOSS = 1 →
        (self.Send cfg env destination data size).outcome = .returned () ∧
          (self.Send cfg env destination data size).syscalls = []) ∧
      (cfg.INTERNET_SIMULATOR = 0 →
        ¬ ((self.Send cfg env destination data size).outcome = .returned () ∧
          (self.Send cfg env destination data size).syscalls = [])) := by
  refine ⟨?_, ?_, ?_, ?_⟩
  · intro hs hD
    rw [← dropped_iff]
    exact Send_dropped_iff cfg env self destination data size hs hD
  · intro hs hD k
    have hc : (List.range cfg.INTERNET_SIMULATOR_PACKET_LOSS).filter (fun i =>
          (self.Send cfg { env with myrand := k * cfg.INTERNET_SIMULATOR_PACKET_LOSS + i }
            destination data size).dropped) =
        (List.range cfg.INTERNET_SIMULATOR_PACKET_LOSS).filter (fun i => decide (i = 0)) := by
      apply List.filter_congr
      intro i hi
      have hlt : i < cfg.INTERNET_SIMULATOR_PACKET_LOSS := List.mem_range.mp hi
      have hmod : (k * cfg.INTERNET_SIMULATOR_PACKET_LOSS + i)
          % cfg.INTERNET_SIMULATOR_PACKET_LOSS = i := by
        rw [Nat.mul_add_mod_of_lt hlt]
      have hiff := Send_dropped_iff cfg
        { env with myrand := k * cfg.INTERNET_SIMULATOR_PACKET_LOSS + i } self destination data
        size hs hD
      simp only [hmod] at hiff
      rw [Bool.eq_iff_iff, decide_eq_true_iff]
      exact hiff
    rw [hc]
    obtain ⟨n, hn⟩ : ∃ n, cfg.INTERNET_SIMULATOR_PACKET_LOSS = n + 1 :=
      ⟨_, (Nat.succ_pred_eq_of_pos hD).symm⟩
    rw [hn, List.range_succ_eq_map]
    have hnil : List.filter (fun i => decide (i = 0)) (List.map Nat.succ (List.range n)) = [] := by
      rw [List.filter_eq_nil_iff]
      intro a ha
      obtain ⟨b, _, hb⟩ := List.mem_map.mp ha
      simp [← hb]
    simp [List.filter_cons, hnil]
  · intro hs hD
    rw [← dropped_iff]
    exact (Send_dropped_iff cfg env self destination data size hs (by omega)).mpr
      (by rw [hD]; exact Nat.mod_one _)
  · intro hs
    unfold UDPSocket.Send
    dsimp only
    have hU : ¬ (cfg.INTERNET_SIMULATOR ≠ 0 ∧ cfg.INTERNET_SIMULATOR_PACKET_LOSS = 0) := by
      rintro ⟨h1, _⟩
      exact h1 hs
    rw [if_neg hU]
    simp only [hs, ne_eq, not_true_eq_false, if_false, Bool.false_eq_true]
    split_ifs <;> simp

/-- Instance of `Send_simulator_drop`: loss constant 10; the draw 20 is
dropped, the draw 7 is sent. -/
theorem Send_simulator_drop_witness :
    linux_simulating.INTERNET_SIMULATOR ≠ 0 ∧ 1 ≤ linux_simulating.INTERNET_SIMULATOR_PACKET_LOSS ∧
      ((sock_v4.Send linux_simulating { env_ready with myrand := 20 } addr_v4 [] 0).outcome
          = .returned () ∧
        (sock_v4.Send linux_simulating { env_ready with myrand := 20 } addr_v4 [] 0).syscalls
          = []) ∧
      ¬ ((sock_v4.Send linux_simulating { env_ready with myrand := 7 } addr_v4 [] 0).outcome
          = .returned () ∧
        (sock_v4.Send linux_simulating { env_ready with myrand := 7 } addr_v4 [] 0).syscalls
          = []) :=
  ⟨by decide, by decide,
    ((Send_simulator_drop linux_simulating { env_ready with myrand := 20 } sock_v4 addr_v4 [] 0).1
      (by decide) (by decide)).mpr (by decide),
    fun h =>
      absurd (((Send_simulator_drop linux_simulating { env_ready with myrand := 7 } sock_v4
        addr_v4 [] 0).1 (by decide) (by decide)).mp h) (by decide)⟩

/-! ### Byte order and the address union -/

/-- Swapping the two octets of a 16-bit value twice gives the value back. -/
theorem bswap16_bswap16 (x : Nat) (h : x < 65536) : bswap16 (bswap16 x) = x := by
  unfold bswap16
  have h1 : x / 256 % 256 = x / 256 := Nat.mod_eq_of_lt (by omega)
  have h2 : ((x % 256) * 256 + x / 256) % 256 = x / 256 := by omega
  have h3 : ((x % 256) * 256 + x / 256) / 256 = x % 256 := by omega
  rw [h1, h2, h3]
  omega

/-- The swapped value is again a 16-bit value. -/
theorem bswap16_lt (x : Nat) : bswap16 x < 65536 := by
  unfold bswap16
  omega

/-- The function `ntohs` undoes `htons` on every 16-bit value, whatever the byte
order of the host. -/
theorem ntohs_htons (cfg : Config) (p : Nat) (h : p < 65536) : ntohs cfg (htons cfg p) = p := by
  unfold ntohs htons
  split_ifs
  · rw [Nat.mod_eq_of_lt h, Nat.mod_eq_of_lt (bswap16_lt p), bswap16_bswap16 p h]
  · rw [Nat.mod_eq_of_lt h, Nat.mod_eq_of_lt h]

/-- Reading `ipv4` after assigning it gives the assigned value. -/
theorem ipv4_set_ipv4 (s : AddressStorage) (v : in_addr) : (s.set_ipv4 v).ipv4 = v := by
  obtain ⟨f⟩ := v
  simp only [AddressStorage.ipv4, AddressStorage.set_ipv4, in_addr.mk.injEq]
  funext i
  have hi : (Fin.castLE (by decide : 4 ≤ 16) i).val < 4 := i.isLt
  simp [hi]

/-- The function `ntohl` applied to the field `s_addr` gives the address as a
host integer whose big-endian digits are the octets in memory. -/
theorem ntohl_s_addr (cfg : Config) (a : in_addr) :
    ntohl cfg (a.s_addr cfg) =
      (a.octets 0).val * 16777216 + (a.octets 1).val * 65536 + (a.octets 2).val * 256 +
        (a.octets 3).val := by
  have h0 := (a.octets 0).isLt
  have h1 := (a.octets 1).isLt
  have h2 := (a.octets 2).isLt
  have h3 := (a.octets 3).isLt
  unfold ntohl in_addr.s_addr bswap32
  split_ifs <;> omega

/-- The V4 octets of the address built from `ntohl(s_addr)` are the octets of
the source `in_addr`. -/
theorem of_u32_ntohl_getAddress (cfg : Config) (a : in_addr) (port : Nat) :
    (Address.of_u32 cfg (ntohl cfg (a.s_addr cfg)) port).getAddress = a := by
  have h0 := (a.octets 0).isLt
  have h1 := (a.octets 1).isLt
  have h2 := (a.octets 2).isLt
  have h3 := (a.octets 3).isLt
  rw [ntohl_s_addr]
  unfold Address.of_u32 Address.getAddress
  rw [ipv4_set_ipv4]
  obtain ⟨f⟩ := a
  simp only [in_addr.mk.injEq]
  funext i
  apply Fin.ext
  simp only [Fin.ofNat, Fin.val_mk] at *
  fin_cases i
  · show _ / 256 ^ (3 - 0) % 256 = (f 0).val
    norm_num
    omega
  · show _ / 256 ^ (3 - 1) % 256 = (f 1).val
    norm_num
    omega
  · show _ / 256 ^ (3 - 2) % 256 = (f 2).val
    norm_num
    omega
  · show _ / 256 ^ (3 - 3) % 256 = (f 3).val
    norm_num
    omega

/-- C5: for an address `a` of family V4 or V6 with a 16-bit port, the sockaddr
that `Bind` and `Send` build from `a`, decoded by the sockaddr constructor of
`Address`, has the family, the address octets (four for V4, sixteen for V6)
and the port of `a`, which is what equality of addresses compares; in the V6
case every member is the same. -/
theorem sockaddr_roundtrip (cfg : Config) (fresh : AddressStorage) (a : Address)
    (hp : a.m_port < 65536) :
    (a.m_addr_family = cfg.AF_INET →
        (Address.of_sockaddr_in cfg fresh (make_sockaddr_in cfg a)).getFamily = a.getFamily ∧
        (Address.of_sockaddr_in cfg fresh (make_sockaddr_in cfg a)).getAddress = a.getAddress ∧
        (Address.of_sockaddr_in cfg fresh (make_sockaddr_in cfg a)).getPort = a.getPort) ∧
      (a.m_addr_family = cfg.AF_INET6 →
        (Address.of_sockaddr_in6 cfg fresh (make_sockaddr_in6 cfg a)).getFamily = a.getFamily ∧
        (Address.of_sockaddr_in6 cfg fresh (make_sockaddr_in6 cfg a)).getAddress6
          = a.getAddress6 ∧
        (Address.of_sockaddr_in6 cfg fresh (make_sockaddr_in6 cfg a)).getPort = a.getPort ∧
        Address.of_sockaddr_in6 cfg fresh (make_sockaddr_in6 cfg a) = a) := by
  have hport : ntohs cfg (htons cfg a.getPort) = a.m_port := ntohs_htons cfg a.m_port hp
  constructor
  · intro hf
    have h1 : (Address.of_sockaddr_in cfg fresh (make_sockaddr_in cfg a)).getAddress
        = a.getAddress := by
      simp only [Address.of_sockaddr_in, make_sockaddr_in, Address.getAddress]
      rw [ipv4_set_ipv4]
    have h2 : (Address.of_sockaddr_in cfg fresh (make_sockaddr_in cfg a)).m_addr_family
        = a.m_addr_family := by
      simp [Address.of_sockaddr_in, make_sockaddr_in, hf]
    have h3 : (Address.of_sockaddr_in cfg fresh (make_sockaddr_in cfg a)).m_port = a.m_port := by
      simp [Address.of_sockaddr_in, make_sockaddr_in, hport]
    exact ⟨h2, h1, h3⟩
  · intro hf
    have he : Address.of_sockaddr_in6 cfg fresh (make_sockaddr_in6 cfg a) = a := by
      obtain ⟨fam, ⟨raw⟩, port⟩ := a
      simp only [Address.of_sockaddr_in6, make_sockaddr_in6, Address.getAddress6,
        AddressStorage.set_ipv6, AddressStorage.ipv6, Address.mk.injEq]
      exact ⟨hf.symm, trivial, hport⟩
    rw [he]
    exact ⟨rfl, rfl, rfl, rfl⟩

/-- Instance of `sockaddr_roundtrip`: the V4 and the V6 any-address with port
30000 on a little-endian host. -/
theorem sockaddr_roundtrip_witness :
    addr_v4.m_port < 65536 ∧ addr_v4.m_addr_family = linux_plain.AF_INET ∧
      (Address.of_sockaddr_in linux_plain zero_storage
        (make_sockaddr_in linux_plain addr_v4)).getPort = addr_v4.getPort ∧
      addr_v6.m_port < 65536 ∧ addr_v6.m_addr_family = linux_plain.AF_INET6 ∧
      Address.of_sockaddr_in6 linux_plain zero_storage (make_sockaddr_in6 linux_plain addr_v6)
        = addr_v6 :=
  ⟨by decide, rfl,
    ((sockaddr_roundtrip linux_plain zero_storage addr_v4 (by decide)).1 rfl).2.2,
    by decide, rfl,
    ((sockaddr_roundtrip linux_plain zero_storage addr_v6 (by decide)).2 rfl).2.2.2⟩

/-- C7, counterexample: the wait reports ready, `recvfrom` fails, and the
sender (family 0 before the call) is left as it was, so its family is not the
family of the V4 endpoint. -/
theorem Receive_sender_family_counterexample :
    ¬ ∀ (cfg : Config) (env : Env) (self : UDPSocket) (sender : Address) (data : Buffer)
        (size : Int), 0 ≤ self.m_timeout_ms → 0 < env.poll_ret → env.poll_revents ≠ 0 →
        (self.Receive cfg env sender data size).sender.getFamily = self.m_addr_family := by
  intro h
  have hc := h linux_plain { env_ready with recvfrom_ret := -1 } sock_v4 addr_none [] 16
    (by decide) (by decide) (by decide)
  revert hc
  decide

/-- C7, amended: when the wait reports ready (`poll` positive with events),
`Receive` issues the `poll` and one `recvfrom` with the size clamped to
non-negative.  If `recvfrom` returns a negative count, `Receive` returns `-1`
without throwing and leaves the sender as it was.  If it returns a count
`n ≥ 0`, `Receive` returns `n` and the sender is the source sockaddr decoded
with the port through `ntohs` and, for V4, the address through `ntohl`; its
octets and port are those of the source, and for an endpoint of family V4 or
V6 its family is the endpoint family. -/
theorem Receive_ready (cfg : Config) (env : Env) (self : UDPSocket) (sender : Address)
    (data : Buffer) (size : Int) (ht : 0 ≤ self.m_timeout_ms) (hp : 0 < env.poll_ret)
    (hr : env.poll_revents ≠ 0) :
    (self.Receive cfg env sender data size).syscalls =
        [.poll self.m_handle self.m_timeout_ms, .recvfrom self.m_handle (MYMAX size 0)] ∧
      (env.recvfrom_ret < 0 →
        (self.Receive cfg env sender data size).outcome = .returned (-1) ∧
        (self.Receive cfg env sender data size).sender = sender) ∧
      (0 ≤ env.recvfrom_ret →
        (self.Receive cfg env sender data size).outcome = .returned env.recvfrom_ret ∧
        (self.m_addr_family = cfg.AF_INET6 →
          (self.Receive cfg env sender data size).sender =
              Address.of_IPv6AddressBytes cfg ⟨env.recvfrom_addr6.sin6_addr.s6_addr⟩
                (ntohs cfg env.recvfrom_addr6.sin6_port) ∧
            (self.Receive cfg env sender data size).sender.getAddress6
              = env.recvfrom_addr6.sin6_addr ∧
            (self.Receive cfg env sender data size).sender.getPort
              = ntohs cfg env.recvfrom_addr6.sin6_port) ∧
        (self.m_addr_family ≠ cfg.AF_INET6 →
          (self.Receive cfg env sender data size).sender =
              Address.of_u32 cfg (ntohl cfg (env.recvfrom_addr.sin_addr.s_addr cfg))
                (ntohs cfg env.recvfrom_addr.sin_port) ∧
            (self.Receive cfg env sender data size).sender.getAddress
              = env.recvfrom_addr.sin_addr ∧
            (self.Receive cfg env sender data size).sender.getPort
              = ntohs cfg env.recvfrom_addr.sin_port) ∧
        (self.m_addr_family = cfg.AF_INET ∨ self.m_addr_family = cfg.AF_INET6 →
          (self.Receive cfg env sender data size).sender.getFamily = self.m_addr_family)) := by
  have h0 : env.poll_ret ≠ 0 := by omega
  have hlt : ∀ x : Nat, ntohs cfg x % 65536 = ntohs cfg x := by
    intro x
    apply Nat.mod_eq_of_lt
    unfold ntohs
    split_ifs
    · exact bswap16_lt _
    · omega
  have hw : self.WaitData cfg env self.m_timeout_ms =
      ⟨.returned true, self, [.poll self.m_handle self.m_timeout_ms], []⟩ := by
    simp [UDPSocket.WaitData, h0, hp, hr, MYMAX_of_nonneg, ht]
  unfold UDPSocket.Receive
  dsimp only
  rw [if_neg (not_not.mpr ht), hw]
  dsimp only
  refine ⟨?_, ?_, ?_⟩
  · split_ifs <;> rfl
  · intro hn
    split_ifs <;> exact ⟨rfl, rfl⟩
  · intro hn
    have hn2 : ¬ env.recvfrom_ret < 0 := by omega
    by_cases h6 : self.m_addr_family = cfg.AF_INET6
    · simp only [h6, hn2, if_true, if_false, true_implies, not_true_eq_false, false_implies,
        ne_eq, and_true, true_and, or_true]
      refine ⟨⟨?_, ?_⟩, ?_⟩
      · rfl
      · simp [Address.of_IPv6AddressBytes, Address.getPort, hlt]
      · rfl
    · simp only [h6, hn2, if_false, false_implies, not_false_eq_true, true_implies, ne_eq,
        true_and, or_false]
      refine ⟨⟨?_, ?_⟩, ?_⟩
      · exact of_u32_ntohl_getAddress cfg env.recvfrom_addr.sin_addr _
      · simp [Address.of_u32, Address.getPort, hlt]
      · intro h4
        rw [h4]
        rfl

/-- Instance of `Receive_ready`: a datagram of five octets arrives on an open
V4 endpoint. -/
theorem Receive_ready_witness :
    0 ≤ sock_v4.m_timeout_ms ∧ 0 < env_ready.poll_ret ∧ env_ready.poll_revents ≠ 0 ∧
      0 ≤ env_ready.recvfrom_ret ∧
      (sock_v4.Receive linux_plain env_ready addr_none [] 16).outcome = .returned 5 ∧
      (sock_v4.Receive linux_plain env_ready addr_none [] 16).sender.getFamily
        = sock_v4.m_addr_family :=
  ⟨by decide, by decide, by decide, by decide,
    ((Receive_ready linux_plain env_ready sock_v4 addr_none [] 16 (by decide) (by decide)
      (by decide)).2.2 (by decide)).1,
    ((Receive_ready linux_plain env_ready sock_v4 addr_none [] 16 (by decide) (by decide)
      (by decide)).2.2 (by decide)).2.2.2 (Or.inl rfl)⟩

end Luanti
